import Mathlib

/-!
Shallow embedding of the `nfqueue-rs` queue-management and packet-dispatch
core (`src/lib.rs`), together with theorems settling the specification
claims about it.

Modelling conventions:
* A raw C pointer is `Ptr := Option Nat`: `none` is the null pointer, and
  `some p` is a non-null pointer value handed back by the native library.
* The native libnetfilter_queue library is an external black box; every
  native call whose result the Rust code consumes takes that result as an
  explicit parameter of the embedded operation (e.g. `nfq_open`'s returned
  handle, `nfq_create_queue`'s returned queue handle, `recv`'s return
  code).  Arguments the Rust code passes down to the native library are
  returned as explicit call records so theorems can speak about them.
* A Rust `assert!` failure (panic/abort) is `Except.error msg`; normal
  return of `v` is `Except.ok v`.
* The user callback `fn(Message, &mut T) -> i32` is modelled as the pure
  function `Message → T → Int × T`: it receives the message and the
  current state and yields the `i32` result together with the updated
  state.
-/

namespace NfqueueRs

/-- A raw pointer: `none` models the C null pointer. -/
abbrev Ptr := Option Nat

/-- Copy modes (`pub enum CopyMode` in `src/lib.rs`). -/
inductive CopyMode where
  /-- Do not copy packet contents nor metadata. -/
  | CopyNone
  /-- Copy only packet metadata, not payload. -/
  | CopyMeta
  /-- Copy packet metadata and payload. -/
  | CopyPacket
deriving DecidableEq, Repr

/-- `const NFQNL_COPY_NONE : u8 = 0x00` -/
def NFQNL_COPY_NONE : Nat := 0x00

/-- `const NFQNL_COPY_META : u8 = 0x01` -/
def NFQNL_COPY_META : Nat := 0x01

/-- `const NFQNL_COPY_PACKET : u8 = 0x02` -/
def NFQNL_COPY_PACKET : Nat := 0x02

/-- The `Message` wrapper that `real_callback` builds over one raw packet
record: `Message::new(qqh, nfad)` stores the native queue handle and the
opaque pointer to the packet attribute record (`nfad`, modelled as an
opaque `Nat` token). -/
structure Message where
  qqh : Ptr
  nfad : Nat
deriving DecidableEq, Repr

/-- `Message::new` -/
def Message.new (qqh : Ptr) (nfad : Nat) : Message := ⟨qqh, nfad⟩

/-- The user callback type `fn(Message, &mut T) -> i32`, modelled with
explicit state passing. -/
abbrev Callback (T : Type) := Message → T → Int × T

/-- `pub struct Queue<T>`: connection handle `qh`, per-queue handle `qqh`,
optional registered callback `cb`, caller-owned state `data`. -/
structure Queue (T : Type) where
  qh : Ptr
  qqh : Ptr
  cb : Option (Callback T)
  data : T

/-- `Queue::new(data)`: both handles null, no callback. -/
def Queue.new (data : T) : Queue T :=
  { qh := none, qqh := none, cb := none, data := data }

/-- `Queue::open(&mut self)`: `self.qh = unsafe { nfq_open() };`.
The native result (null on failure) is stored unconditionally; the Rust
function returns `()` and has no failure channel, so the embedding is a
total state transformer. -/
def Queue.«open» (q : Queue T) (nfq_open_result : Ptr) : Queue T :=
  { q with qh := nfq_open_result }

/-- `Queue::close(&mut self)`: asserts `!self.qh.is_null()`, calls
`nfq_close(self.qh)`, then nulls `self.qh`.  Note the source does NOT
touch `self.qqh`. -/
def Queue.close (q : Queue T) : Except String (Queue T) :=
  if q.qh.isNone then .error "assertion failed: !self.qh.is_null()"
  else .ok { q with qh := none }

/-- The arguments `Queue::create_queue` passes to `nfq_create_queue`:
the non-null connection handle and the queue number.  The remaining two
arguments in the source are the fixed trampoline `real_callback::<T>` and
the transmuted `&*self` context pointer; dispatch through them is modelled
by `real_callback` below acting on this `Queue`'s state. -/
structure CreateQueueCall where
  conn : Nat
  num : Nat
deriving DecidableEq, Repr

/-- `Queue::create_queue(&mut self, num, cb) -> bool`: asserts
`!self.qh.is_null()` and `self.qqh.is_null()`, stores `self.cb = Some(cb)`,
then `self.qqh = nfq_create_queue(self.qh, num, Some(real_callback::<T>),
self_ptr)` and returns `!self.qqh.is_null()`.  The native result is the
parameter `r`; the returned triple is (new state, returned bool, native
call made). -/
def Queue.create_queue (q : Queue T) (num : Nat) (cb : Callback T) (r : Ptr) :
    Except String (Queue T × Bool × CreateQueueCall) :=
  match q.qh with
  | none => .error "assertion failed: !self.qh.is_null()"
  | some conn =>
    if q.qqh.isSome then .error "assertion failed: self.qqh.is_null()"
    else .ok ({ q with cb := some cb, qqh := r }, r.isSome, ⟨conn, num⟩)

/-- `Queue::destroy_queue(&mut self)`: asserts `!self.qqh.is_null()`,
calls `nfq_destroy_queue(self.qqh)`, nulls `self.qqh`. -/
def Queue.destroy_queue (q : Queue T) : Except String (Queue T) :=
  if q.qqh.isNone then .error "assertion failed: !self.qqh.is_null()"
  else .ok { q with qqh := none }

/-- The arguments `Queue::set_mode` passes to `nfq_set_mode`: the non-null
queue handle, the `u8` mode code, and the byte range. -/
structure SetModeCall where
  qqh : Nat
  c_mode : Nat
  range : Nat
deriving DecidableEq, Repr

/-- The `match mode` inside `Queue::set_mode` translating `CopyMode` to the
native `u8` constant. -/
def c_mode_of : CopyMode → Nat
  | .CopyNone => NFQNL_COPY_NONE
  | .CopyMeta => NFQNL_COPY_META
  | .CopyPacket => NFQNL_COPY_PACKET

/-- `Queue::set_mode(&self, mode, range)`: asserts `!self.qqh.is_null()`,
then `nfq_set_mode(self.qqh, c_mode, range);` with the native result
discarded (the `;` drops the `i32`), returning `()` to the caller.
`nfq_set_mode_result` is the native result; the ok value is the caller's
`()` paired with the native call made. -/
def Queue.set_mode (q : Queue T) (mode : CopyMode) (range : Nat)
    (_nfq_set_mode_result : Int) : Except String (Unit × SetModeCall) :=
  match q.qqh with
  | none => .error "assertion failed: !self.qqh.is_null()"
  | some h => .ok ((), ⟨h, c_mode_of mode, range⟩)

/-- The arguments `Queue::set_queue_maxlen` passes to
`nfq_set_queue_maxlen`: the non-null queue handle and the length. -/
structure SetQueueMaxlenCall where
  qqh : Nat
  queuelen : Nat
deriving DecidableEq, Repr

/-- `Queue::set_queue_maxlen(&self, queuelen) -> i32`: asserts
`!self.qqh.is_null()`, returns `nfq_set_queue_maxlen(self.qqh, queuelen)`
(the native result) unmodified; the ok value pairs the caller-visible
`i32` with the native call made. -/
def Queue.set_queue_maxlen (q : Queue T) (queuelen : Nat)
    (nfq_set_queue_maxlen_result : Int) :
    Except String (Int × SetQueueMaxlenCall) :=
  match q.qqh with
  | none => .error "assertion failed: !self.qqh.is_null()"
  | some h => .ok (nfq_set_queue_maxlen_result, ⟨h, queuelen⟩)

/-- `real_callback<T>(qqh, _nfmsg, nfad, data) -> i32`: recovers the
`Queue<T>` from the context pointer (here: takes the queue directly),
builds `Message::new(qqh, nfad)`, panics with "no callback registered" if
`q.cb` is `None`, otherwise invokes the callback with the message and a
mutable reference to `q.data` and returns its `i32` result unmodified
(paired here with the queue carrying the updated state). -/
def real_callback (q : Queue T) (qqh : Ptr) (nfad : Nat) :
    Except String (Int × Queue T) :=
  let msg := Message.new qqh nfad
  match q.cb with
  | none => .error "no callback registered"
  | some callback =>
    let res := callback msg q.data
    .ok (res.1, { q with data := res.2 })

/-- One iteration's environment inside `Queue::run_loop`: the `recv`
return code `rc` and the `nfq_handle_packet` return code `rv`. -/
abbrev LoopEvent := Int × Int

/-- The body of the `loop` in `Queue::run_loop`, run over a finite prefix
of the environment's results: for each event, `rc < 0` panics with
"error in recv()"; otherwise the buffer is handed to `nfq_handle_packet`
and a negative `rv` merely appends the log line
"error in nfq_handle_packet()" and the loop continues.  Exhausting the
list means the loop is still running (blocked in the next `recv`); the ok
value is the log emitted so far. -/
def run_loop_events : List LoopEvent → Except String (List String)
  | [] => .ok []
  | (rc, rv) :: rest =>
    if rc < 0 then .error "error in recv()"
    else
      (run_loop_events rest).map
        (fun log =>
          (if rv < 0 then ["error in nfq_handle_packet()"] else []) ++ log)

/-- `Queue::run_loop(&self)`: asserts `!self.qh.is_null()`,
`!self.qqh.is_null()` and `!self.cb.is_none()`, then loops over the
environment events. -/
def Queue.run_loop (q : Queue T) (events : List LoopEvent) :
    Except String (List String) :=
  if q.qh.isNone then .error "assertion failed: !self.qh.is_null()"
  else if q.qqh.isNone then .error "assertion failed: !self.qqh.is_null()"
  else if q.cb.isNone then .error "assertion failed: !self.cb.is_none()"
  else run_loop_events events

/-- One lifecycle operation on a `Queue`, with the native library's
nondeterministic results baked in as data. -/
inductive Op (T : Type) where
  | op_open (r : Ptr)
  | op_close
  | op_create (num : Nat) (cb : Callback T) (r : Ptr)
  | op_destroy

/-- Apply one operation to a queue state. -/
def step (q : Queue T) : Op T → Except String (Queue T)
  | .op_open r => .ok (q.«open» r)
  | .op_close => q.close
  | .op_create num cb r => (q.create_queue num cb r).map (fun x => x.1)
  | .op_destroy => q.destroy_queue

/-- Run a sequence of operations, stopping at the first panic. -/
def run (q : Queue T) : List (Op T) → Except String (Queue T)
  | [] => .ok q
  | op :: rest =>
    match step q op with
    | .ok q' => run q' rest
    | .error e => .error e

/-- The lifecycle invariant claimed by the spec: the per-queue handle is
non-null only while the connection handle is non-null. -/
def lifecycle_inv (q : Queue T) : Bool :=
  !q.qqh.isSome || q.qh.isSome

/-- Trace discipline under which the lifecycle invariant does hold on this
code: `close` is only invoked while the queue handle is null, and `open`
is only invoked while the connection handle is null. -/
def disciplined (q : Queue T) : List (Op T) → Bool
  | [] => true
  | op :: rest =>
    (match op with
     | .op_open _ => q.qh.isNone
     | .op_close => q.qqh.isNone
     | _ => true)
    &&
    (match step q op with
     | .ok q' => disciplined q' rest
     | .error _ => true)

/-- A concrete callback used in concrete executions: returns the packet
record token as the result code and increments a `Nat` counter state. -/
def count_cb : Callback Nat := fun msg n => ((msg.nfad : Int), n + 1)

/-- A concrete callback over trivial state. -/
def unit_cb : Callback Unit := fun _ t => (0, t)

/-! ## Theorems settling the claims -/

/-- C2 counterexample: on a fresh `Queue` (null connection handle),
`create_queue(0, cb)` does not return `false` to the caller — it aborts on
the `assert!(!self.qh.is_null())` precondition. -/
theorem create_queue_null_conn_cex :
    (Queue.new Unit.unit).create_queue 0 unit_cb (some 1) =
      .error "assertion failed: !self.qh.is_null()" := rfl

/-- C2 (amended): for every `Queue` whose connection handle is null,
`create_queue(num, cb)` aborts with an assertion failure (precondition
violation) instead of returning a non-success indicator. -/
theorem create_queue_null_conn_panics (q : Queue T) (num : Nat)
    (cb : Callback T) (r : Ptr) (hq : q.qh = none) :
    q.create_queue num cb r =
      .error "assertion failed: !self.qh.is_null()" := by
  unfold Queue.create_queue
  rw [hq]

/-- C2 witness: the amended statement at a concrete input. -/
theorem create_queue_null_conn_panics_witness :
    (Queue.new Unit.unit).create_queue 3 unit_cb (some 1) =
      .error "assertion failed: !self.qh.is_null()" :=
  create_queue_null_conn_panics (Queue.new Unit.unit) 3 unit_cb (some 1) rfl

/-- C3 counterexample: when the native `nfq_open` returns null, `open()`
gives the caller no failure indication at all — the resulting `Queue` is
indistinguishable from a never-opened one, silently holding a null
connection handle. -/
theorem open_failure_silent_cex :
    ((Queue.new Unit.unit).«open» none).qh = none
    ∧ (Queue.new Unit.unit).«open» none = Queue.new Unit.unit :=
  ⟨rfl, rfl⟩

/-- C3 (amended): `open()` stores the native result unconditionally and
returns no failure result (its return type is unit); after a failed native
open the queue silently holds a null handle, and the failure only surfaces
later, when a subsequent operation's non-null assertion fires (e.g.
`close()` aborts). -/
theorem open_stores_result_silently (q : Queue T) (r : Ptr) :
    q.«open» r = { q with qh := r }
    ∧ (q.«open» none).close =
        .error "assertion failed: !self.qh.is_null()" :=
  ⟨rfl, rfl⟩

/-- C5: the dispatch trampoline `real_callback` panics if no callback is
registered; otherwise it builds `Message::new(qqh, nfad)`, invokes the
registered callback with that message and a mutable reference to the
queue's state, and returns the callback's `i32` result unmodified. -/
theorem real_callback_spec (q : Queue T) (qqh : Ptr) (nfad : Nat) :
    (q.cb = none →
      real_callback q qqh nfad = .error "no callback registered")
    ∧ (∀ f, q.cb = some f →
        real_callback q qqh nfad =
          .ok ((f (Message.new qqh nfad) q.data).1,
            { q with data := (f (Message.new qqh nfad) q.data).2 })) := by
  constructor
  · intro hnone
    unfold real_callback
    rw [hnone]
  · intro f hsome
    unfold real_callback
    rw [hsome]

/-- C5 witness: both trampoline branches at concrete inputs. -/
theorem real_callback_spec_witness :
    real_callback (Queue.new Unit.unit) none 0 =
      .error "no callback registered"
    ∧ real_callback (⟨some 1, some 2, some count_cb, 41⟩ : Queue Nat)
        (some 2) 7 = .ok (7, ⟨some 1, some 2, some count_cb, 42⟩) :=
  ⟨(real_callback_spec (Queue.new Unit.unit) none 0).1 rfl,
   (real_callback_spec (⟨some 1, some 2, some count_cb, 41⟩ : Queue Nat)
      (some 2) 7).2 count_cb rfl⟩

/-- C6: on an open connection (`qh = some h`) with no existing queue
handle, `create_queue(num, cb)` registers `cb` as the queue's callback,
passes the native library the connection handle and queue number (the
trampoline and self pointer being fixed by the code), stores the native
result as the queue handle, and returns true iff that handle is
non-null. -/
theorem create_queue_spec (q : Queue T) (h : Nat) (num : Nat)
    (cb : Callback T) (r : Ptr) (hqh : q.qh = some h) (hqqh : q.qqh = none) :
    q.create_queue num cb r =
      .ok ({ q with cb := some cb, qqh := r }, r.isSome, ⟨h, num⟩) := by
  unfold Queue.create_queue
  rw [hqh, hqqh]
  rfl

/-- C6 witness: a successful creation at concrete inputs returns true and
a failed one (null native result) returns false. -/
theorem create_queue_spec_witness :
    ((Queue.new (0 : Nat)).«open» (some 5)).create_queue 7 count_cb (some 9)
      = .ok (⟨some 5, some 9, some count_cb, 0⟩, true, ⟨5, 7⟩)
    ∧ ((Queue.new (0 : Nat)).«open» (some 5)).create_queue 7 count_cb none
      = .ok (⟨some 5, none, some count_cb, 0⟩, false, ⟨5, 7⟩) :=
  ⟨create_queue_spec ((Queue.new (0 : Nat)).«open» (some 5)) 5 7 count_cb
      (some 9) rfl rfl,
   create_queue_spec ((Queue.new (0 : Nat)).«open» (some 5)) 5 7 count_cb
      none rfl rfl⟩

/-- C7: `set_mode(mode, range)` aborts on its assertion when the queue
handle is null (so calling it before `create_queue` is a precondition
violation, not a silent no-op), and with a non-null queue handle it passes
the native library the mode codes 0/1/2 for CopyNone/CopyMeta/CopyPacket
together with the given range. -/
theorem set_mode_spec (q : Queue T) (mode : CopyMode) (range : Nat)
    (res : Int) :
    (q.qqh = none →
      q.set_mode mode range res =
        .error "assertion failed: !self.qqh.is_null()")
    ∧ (∀ h, q.qqh = some h →
        q.set_mode mode range res = .ok ((), ⟨h, c_mode_of mode, range⟩))
    ∧ c_mode_of .CopyNone = 0
    ∧ c_mode_of .CopyMeta = 1
    ∧ c_mode_of .CopyPacket = 2 := by
  refine ⟨?_, ?_, rfl, rfl, rfl⟩
  · intro hnone
    unfold Queue.set_mode
    rw [hnone]
  · intro h hsome
    unfold Queue.set_mode
    rw [hsome]

/-- C7 witness: the precondition violation on a fresh queue and the
CopyPacket configuration call at concrete inputs. -/
theorem set_mode_spec_witness :
    (Queue.new Unit.unit).set_mode .CopyPacket 0xffff 0 =
      .error "assertion failed: !self.qqh.is_null()"
    ∧ (⟨some 1, some 2, some unit_cb, Unit.unit⟩ : Queue Unit).set_mode
        .CopyPacket 0xffff 0 = .ok ((), ⟨2, 2, 0xffff⟩) :=
  ⟨(set_mode_spec (Queue.new Unit.unit) .CopyPacket 0xffff 0).1 rfl,
   (set_mode_spec (⟨some 1, some 2, some unit_cb, Unit.unit⟩ : Queue Unit)
      .CopyPacket 0xffff 0).2.1 2 rfl⟩

/-- C8: on a freshly constructed queue, a successful `open()` followed
immediately by `close()` leaves both the connection handle and the queue
handle null (the state is exactly the fresh state again), and a second
`close()` without an intervening `open()` fails the non-null assertion,
aborting. -/
theorem open_close_twice (d : T) (p : Nat) :
    ((Queue.new d).«open» (some p)).close = .ok (Queue.new d)
    ∧ (Queue.new d).qh = none
    ∧ (Queue.new d).qqh = none
    ∧ (Queue.new d).close =
        .error "assertion failed: !self.qh.is_null()" :=
  ⟨rfl, rfl, rfl, rfl⟩

/-- C10: `set_mode` discards the native result code — its caller-visible
outcome is identical for any two native results — whereas
`set_queue_maxlen` returns the native result code to the caller
unmodified. -/
theorem set_mode_result_discarded (q : Queue T) (mode : CopyMode)
    (range : Nat) :
    (∀ r₁ r₂ : Int, q.set_mode mode range r₁ = q.set_mode mode range r₂)
    ∧ (∀ (h len : Nat) (r : Int), q.qqh = some h →
        q.set_queue_maxlen len r = .ok (r, ⟨h, len⟩)) := by
  constructor
  · intro r₁ r₂
    rfl
  · intro h len r hsome
    unfold Queue.set_queue_maxlen
    rw [hsome]

/-- C10 witness: at a concrete queue, `set_mode` with native results 0 and
-1 is the same to the caller, while `set_queue_maxlen` surfaces -1. -/
theorem set_mode_result_discarded_witness :
    (⟨some 1, some 2, some unit_cb, Unit.unit⟩ : Queue Unit).set_mode
        .CopyMeta 4 0
      = (⟨some 1, some 2, some unit_cb, Unit.unit⟩ : Queue Unit).set_mode
        .CopyMeta 4 (-1)
    ∧ (⟨some 1, some 2, some unit_cb, Unit.unit⟩ : Queue Unit).set_queue_maxlen
        100 (-1) = .ok (-1, ⟨2, 100⟩) :=
  ⟨(set_mode_result_discarded
      (⟨some 1, some 2, some unit_cb, Unit.unit⟩ : Queue Unit)
      .CopyMeta 4).1 0 (-1),
   (set_mode_result_discarded
      (⟨some 1, some 2, some unit_cb, Unit.unit⟩ : Queue Unit)
      .CopyMeta 4).2 2 100 (-1) rfl⟩

/-- Helper: the loop over events panics exactly when some event's `recv`
return code is negative. -/
theorem run_loop_events_error_iff (events : List LoopEvent) :
    (∃ s, run_loop_events events = .error s) ↔ ∃ e ∈ events, e.1 < 0 := by
  induction events with
  | nil =>
    constructor
    · rintro ⟨s, hs⟩
      exact Except.noConfusion hs
    · rintro ⟨e, he, _⟩
      exact absurd he (List.not_mem_nil e)
  | cons ev rest ih =>
    obtain ⟨rc, rv⟩ := ev
    by_cases hrc : rc < 0
    · constructor
      · intro _
        exact ⟨(rc, rv), List.mem_cons_self _ _, hrc⟩
      · intro _
        exact ⟨"error in recv()", by simp [run_loop_events, hrc]⟩
    · constructor
      · rintro ⟨s, hs⟩
        simp only [run_loop_events, if_neg hrc] at hs
        cases hrec : run_loop_events rest with
        | ok log =>
          rw [hrec] at hs
          exact Except.noConfusion hs
        | error t =>
          obtain ⟨e, he, hlt⟩ := ih.mp ⟨t, hrec⟩
          exact ⟨e, List.mem_cons_of_mem _ he, hlt⟩
      · rintro ⟨e, he, hlt⟩
        rcases List.mem_cons.mp he with heq | hmem
        · subst heq
          exact absurd hlt hrc
        · obtain ⟨s, hs⟩ := ih.mpr ⟨e, hmem, hlt⟩
          refine ⟨s, ?_⟩
          simp [run_loop_events, hrc, hs, Except.map]

/-- Helper: with no negative `recv` result, the loop consumes every event
(also those after a parse failure) and logs one line per negative
`nfq_handle_packet` result. -/
theorem run_loop_events_ok (events : List LoopEvent) :
    (∀ e ∈ events, 0 ≤ e.1) →
    run_loop_events events =
      .ok ((events.filter (fun e => decide (e.2 < 0))).map
        (fun _ => "error in nfq_handle_packet()")) := by
  induction events with
  | nil => intro _; rfl
  | cons ev rest ih =>
    intro h
    obtain ⟨rc, rv⟩ := ev
    have hrc : ¬ rc < 0 := not_lt.mpr (h (rc, rv) (List.mem_cons_self _ _))
    have hrest := ih (fun e he => h e (List.mem_cons_of_mem _ he))
    by_cases hrv : rv < 0
    · simp [run_loop_events, hrc, hrest, Except.map, List.filter_cons, hrv]
    · simp [run_loop_events, hrc, hrest, Except.map, List.filter_cons, hrv]

/-- C4: inside `run_loop`, a negative `recv` result aborts the loop (the
only termination condition), while a negative `nfq_handle_packet` result
only logs a line and the loop continues: with no negative `recv` result
the loop processes every event — including those after a parse failure —
and emits one log line per negative parse result. -/
theorem run_loop_fatal_vs_nonfatal (events : List LoopEvent) :
    ((∃ s, run_loop_events events = .error s) ↔ ∃ e ∈ events, e.1 < 0)
    ∧ ((∀ e ∈ events, 0 ≤ e.1) →
        run_loop_events events =
          .ok ((events.filter (fun e => decide (e.2 < 0))).map
            (fun _ => "error in nfq_handle_packet()"))) :=
  ⟨run_loop_events_error_iff events, run_loop_events_ok events⟩

/-- C4 witness: two parse failures around a successful read all get
processed and logged; no abort happens. -/
theorem run_loop_fatal_vs_nonfatal_witness :
    run_loop_events [((5 : Int), (-1 : Int)), (3, 2), (0, -4)] =
      .ok ["error in nfq_handle_packet()", "error in nfq_handle_packet()"] :=
  (run_loop_fatal_vs_nonfatal [(5, -1), (3, 2), (0, -4)]).2 (by decide)

/-- Helper equation: `create_queue` on a null connection handle. -/
theorem create_queue_qh_none (q : Queue T) (num : Nat) (cb : Callback T)
    (r : Ptr) (hqh : q.qh = none) :
    q.create_queue num cb r =
      .error "assertion failed: !self.qh.is_null()" := by
  unfold Queue.create_queue
  rw [hqh]

/-- Helper equation: `create_queue` on an existing queue handle. -/
theorem create_queue_qqh_some (q : Queue T) (conn v : Nat) (num : Nat)
    (cb : Callback T) (r : Ptr) (hqh : q.qh = some conn)
    (hqqh : q.qqh = some v) :
    q.create_queue num cb r =
      .error "assertion failed: self.qqh.is_null()" := by
  unfold Queue.create_queue
  rw [hqh, hqqh]
  rfl

/-- Helper equation: `create_queue` when both preconditions hold. -/
theorem create_queue_ok (q : Queue T) (conn : Nat) (num : Nat)
    (cb : Callback T) (r : Ptr) (hqh : q.qh = some conn)
    (hqqh : q.qqh = none) :
    q.create_queue num cb r =
      .ok ({ q with cb := some cb, qqh := r }, r.isSome, ⟨conn, num⟩) := by
  unfold Queue.create_queue
  rw [hqh, hqqh]
  rfl

/-- Helper: a single (guarded) step preserves the lifecycle invariant. -/
theorem step_preserves_inv (q q' : Queue T) (op : Op T)
    (hguard : (match op with
      | .op_open _ => q.qh.isNone
      | .op_close => q.qqh.isNone
      | _ => true) = true)
    (hinv : lifecycle_inv q = true)
    (hstep : step q op = .ok q') : lifecycle_inv q' = true := by
  cases op with
  | op_open r =>
    simp only [step, Queue.«open»] at hstep
    injection hstep with h1
    subst h1
    simp only [lifecycle_inv] at *
    cases hqqh : q.qqh with
    | none => simp
    | some v =>
      rw [hqqh] at hinv
      cases hqh : q.qh with
      | none => rw [hqh] at hinv; simp at hinv
      | some w => rw [hqh] at hguard; simp at hguard
  | op_close =>
    simp only [step, Queue.close] at hstep
    by_cases hqh : q.qh.isNone
    · rw [if_pos hqh] at hstep
      exact Except.noConfusion hstep
    · rw [if_neg hqh] at hstep
      injection hstep with h1
      subst h1
      simp only [lifecycle_inv]
      simp only [Option.isNone_iff_eq_none] at hguard
      simp [hguard]
  | op_create num cb r =>
    cases hqh : q.qh with
    | none =>
      simp only [step, create_queue_qh_none q num cb r hqh,
        Except.map] at hstep
      exact Except.noConfusion hstep
    | some conn =>
      cases hqqh : q.qqh with
      | some v =>
        simp only [step, create_queue_qqh_some q conn v num cb r hqh hqqh,
          Except.map] at hstep
        exact Except.noConfusion hstep
      | none =>
        simp only [step, create_queue_ok q conn num cb r hqh hqqh,
          Except.map] at hstep
        injection hstep with h1
        subst h1
        simp [lifecycle_inv, hqh]
  | op_destroy =>
    simp only [step, Queue.destroy_queue] at hstep
    by_cases hqqh : q.qqh.isNone
    · rw [if_pos hqqh] at hstep
      exact Except.noConfusion hstep
    · rw [if_neg hqqh] at hstep
      injection hstep with h1
      subst h1
      simp [lifecycle_inv]

/-- Helper: running a disciplined trace from an invariant state keeps the
invariant. -/
theorem disciplined_run_inv (ops : List (Op T)) :
    ∀ q q' : Queue T, lifecycle_inv q = true → disciplined q ops = true →
      run q ops = .ok q' → lifecycle_inv q' = true := by
  induction ops with
  | nil =>
    intro q q' hinv _ hrun
    injection hrun with h1
    subst h1
    exact hinv
  | cons op rest ih =>
    intro q q' hinv hd hrun
    cases hstep : step q op with
    | error e =>
      simp only [run, hstep] at hrun
      exact Except.noConfusion hrun
    | ok q1 =>
      simp only [run, hstep] at hrun
      simp only [disciplined, hstep, Bool.and_eq_true] at hd
      exact ih q1 q' (step_preserves_inv q q1 op hd.1 hinv hstep) hd.2 hrun

/-- C1 counterexample: the operation sequence open(ok), create_queue(ok),
close is a legal run (every assertion passes), yet it ends with the
connection handle null and the queue handle non-null — `close()` does NOT
clear the queue handle (`Queue::close` only nulls `qh`). -/
theorem close_leaves_queue_handle_cex :
    run (Queue.new Unit.unit)
      [.op_open (some 1), .op_create 0 unit_cb (some 2), .op_close] =
      .ok ⟨none, some 2, some unit_cb, Unit.unit⟩
    ∧ lifecycle_inv (⟨none, some 2, some unit_cb, Unit.unit⟩ : Queue Unit)
        = false :=
  ⟨rfl, rfl⟩

/-- C1 (amended): `close()` clears only the connection handle, so the
state (qh null, qqh non-null) is reachable; the invariant "the per-queue
handle is non-null only while the connection handle is non-null" holds for
every operation sequence from a fresh queue that is disciplined: `close`
is invoked only while the queue handle is null (i.e. after
`destroy_queue`) and `open` only while the connection handle is null. -/
theorem lifecycle_inv_of_disciplined (d : T) (ops : List (Op T))
    (q' : Queue T) (hd : disciplined (Queue.new d) ops = true)
    (hrun : run (Queue.new d) ops = .ok q')
    (hq : q'.qqh.isSome = true) : q'.qh.isSome = true := by
  have hinv := disciplined_run_inv ops (Queue.new d) q' rfl hd hrun
  simp only [lifecycle_inv, hq, Bool.not_true, Bool.false_or] at hinv
  exact hinv

/-- C1 witness: a disciplined run reaching a live queue handle indeed has
a live connection handle. -/
theorem lifecycle_inv_of_disciplined_witness :
    (⟨some 1, some 2, some unit_cb, Unit.unit⟩ : Queue Unit).qh.isSome
      = true :=
  lifecycle_inv_of_disciplined Unit.unit
    [.op_open (some 1), .op_create 0 unit_cb (some 2)]
    ⟨some 1, some 2, some unit_cb, Unit.unit⟩ rfl rfl rfl

/-- Helper: a single step never discards a registered callback. -/
theorem step_preserves_cb (q q' : Queue T) (op : Op T)
    (hcb : q.cb.isSome = true) (hstep : step q op = .ok q') :
    q'.cb.isSome = true := by
  cases op with
  | op_open r =>
    simp only [step, Queue.«open»] at hstep
    injection hstep with h1
    subst h1
    exact hcb
  | op_close =>
    simp only [step, Queue.close] at hstep
    by_cases hqh : q.qh.isNone
    · rw [if_pos hqh] at hstep
      exact Except.noConfusion hstep
    · rw [if_neg hqh] at hstep
      injection hstep with h1
      subst h1
      exact hcb
  | op_create num cb r =>
    cases hqh : q.qh with
    | none =>
      simp only [step, create_queue_qh_none q num cb r hqh,
        Except.map] at hstep
      exact Except.noConfusion hstep
    | some conn =>
      cases hqqh : q.qqh with
      | some v =>
        simp only [step, create_queue_qqh_some q conn v num cb r hqh hqqh,
          Except.map] at hstep
        exact Except.noConfusion hstep
      | none =>
        simp only [step, create_queue_ok q conn num cb r hqh hqqh,
          Except.map] at hstep
        injection hstep with h1
        subst h1
        rfl
  | op_destroy =>
    simp only [step, Queue.destroy_queue] at hstep
    by_cases hqqh : q.qqh.isNone
    · rw [if_pos hqqh] at hstep
      exact Except.noConfusion hstep
    · rw [if_neg hqqh] at hstep
      injection hstep with h1
      subst h1
      exact hcb

/-- Helper: a registered callback survives any run of operations. -/
theorem run_preserves_cb (ops : List (Op T)) :
    ∀ q q' : Queue T, q.cb.isSome = true → run q ops = .ok q' →
      q'.cb.isSome = true := by
  induction ops with
  | nil =>
    intro q q' hcb hrun
    injection hrun with h1
    subst h1
    exact hcb
  | cons op rest ih =>
    intro q q' hcb hrun
    cases hstep : step q op with
    | error e =>
      simp only [run, hstep] at hrun
      exact Except.noConfusion hrun
    | ok q1 =>
      simp only [run, hstep] at hrun
      exact ih q1 q' (step_preserves_cb q q1 op hcb hstep) hrun

/-- C9: `create_queue` stores the callback before the native creation
call, so even a `create_queue` whose native result is null (returning
false) leaves `cb = Some(cb)`; and neither `close` nor `destroy_queue`
(nor any run of lifecycle operations) ever resets a registered callback
to `None`. -/
theorem callback_persistence :
    (∀ (T : Type) (q : Queue T) (num : Nat) (cb : Callback T) (r : Ptr)
        (q' : Queue T) (b : Bool) (c : CreateQueueCall),
        q.create_queue num cb r = .ok (q', b, c) → q'.cb = some cb)
    ∧ (∀ (T : Type) (q q' : Queue T), q.close = .ok q' → q'.cb = q.cb)
    ∧ (∀ (T : Type) (q q' : Queue T),
        q.destroy_queue = .ok q' → q'.cb = q.cb)
    ∧ (∀ (T : Type) (q : Queue T) (ops : List (Op T)) (q' : Queue T),
        q.cb.isSome = true → run q ops = .ok q' →
          q'.cb.isSome = true) := by
  refine ⟨?_, ?_, ?_, ?_⟩
  · intro T q num cb r q' b c h
    cases hqh : q.qh with
    | none =>
      rw [create_queue_qh_none q num cb r hqh] at h
      exact Except.noConfusion h
    | some conn =>
      cases hqqh : q.qqh with
      | some v =>
        rw [create_queue_qqh_some q conn v num cb r hqh hqqh] at h
        exact Except.noConfusion h
      | none =>
        rw [create_queue_ok q conn num cb r hqh hqqh] at h
        injection h with h1
        have h2 := congrArg (fun x => x.1.cb) h1
        simpa using h2.symm
  · intro T q q' h
    unfold Queue.close at h
    by_cases hqh : q.qh.isNone
    · rw [if_pos hqh] at h
      exact Except.noConfusion h
    · rw [if_neg hqh] at h
      injection h with h1
      subst h1
      rfl
  · intro T q q' h
    unfold Queue.destroy_queue at h
    by_cases hqqh : q.qqh.isNone
    · rw [if_pos hqqh] at h
      exact Except.noConfusion h
    · rw [if_neg hqqh] at h
      injection h with h1
      subst h1
      rfl
  · intro T q ops q' hcb hrun
    exact run_preserves_cb ops q q' hcb hrun

/-- C9 witness: a failed creation still registers the callback; close,
destroy and a whole run keep it. -/
theorem callback_persistence_witness :
    ((⟨some 5, none, some count_cb, 0⟩ : Queue Nat).cb = some count_cb)
    ∧ ((⟨none, some 2, some count_cb, 0⟩ : Queue Nat).cb =
        (⟨some 5, some 2, some count_cb, 0⟩ : Queue Nat).cb)
    ∧ ((⟨some 5, none, some count_cb, 0⟩ : Queue Nat).cb =
        (⟨some 5, some 2, some count_cb, 0⟩ : Queue Nat).cb)
    ∧ ((⟨none, none, some count_cb, 0⟩ : Queue Nat).cb.isSome = true) :=
  ⟨callback_persistence.1 Nat ((Queue.new (0 : Nat)).«open» (some 5)) 7
      count_cb none ⟨some 5, none, some count_cb, 0⟩ false ⟨5, 7⟩ rfl,
   callback_persistence.2.1 Nat ⟨some 5, some 2, some count_cb, 0⟩
      ⟨none, some 2, some count_cb, 0⟩ rfl,
   callback_persistence.2.2.1 Nat ⟨some 5, some 2, some count_cb, 0⟩
      ⟨some 5, none, some count_cb, 0⟩ rfl,
   callback_persistence.2.2.2 Nat ⟨some 5, some 2, some count_cb, 0⟩
      [.op_destroy, .op_close] ⟨none, none, some count_cb, 0⟩ rfl rfl⟩

end NfqueueRs
